import Mathlib

/-!
Verification of the live-trading core of LimogiAI/LimogiAIcryptoX.

Shallow embedding of the Python sources under
`backend/app/core/live_trading/` (circuit_breaker.py, config.py,
executor.py, guard.py, scanner.py).  Python floats are modelled as
rationals, Python ints as integers, `datetime` values as a day ordinal
plus a millisecond-of-day tick, nullable columns as `Option`.
-/

/-- A UTC instant: `day` is the date ordinal (what Python `.date()`
compares), `msec` the time of day.  Only the date part is ever compared
by the code under verification. -/
structure DateTime where
  day : Int
  msec : Nat
deriving DecidableEq, Repr

/-- Python truthiness fallback `x or d` for integers (`0` is falsy). -/
def pyOrInt (x d : Int) : Int := if x = 0 then d else x

/-- Python truthiness fallback `x or d` for floats (`0.0` is falsy). -/
def pyOrRat (x d : ℚ) : ℚ := if x = 0 then d else x

/-- The `live_trading_state` singleton row (models/live_trading.py,
`LiveTradingState`), which `CircuitBreaker` reads and mutates. -/
structure CBState where
  daily_loss : ℚ
  daily_profit : ℚ
  daily_trades : Int
  daily_wins : Int
  total_loss : ℚ
  total_profit : ℚ
  total_trades : Int
  total_wins : Int
  total_trade_amount : ℚ
  partial_trades : Int
  partial_estimated_loss : ℚ
  partial_estimated_profit : ℚ
  partial_trade_amount : ℚ
  is_circuit_broken : Bool
  circuit_broken_at : Option DateTime
  circuit_broken_reason : Option String
  last_trade_at : Option DateTime
  last_daily_reset : Option DateTime
  is_executing : Bool
  current_trade_id : Option String
deriving DecidableEq, Repr

/-- The `live_trading_config` singleton row (models/live_trading.py,
`LiveTradingConfig`) merged with the `LiveTradingSettings` view that
`ConfigManager.get_settings` builds from it (config.py).  The
`execution_mode` column exists on the row (default `sequential`) and is
what `mark_executing` and `check_can_trade` consult. -/
structure Config where
  is_enabled : Bool
  trade_amount : ℚ
  min_profit_threshold : ℚ
  max_daily_loss : ℚ
  max_total_loss : ℚ
  max_retries_per_leg : Int
  order_timeout_seconds : Int
  base_currency : String
  custom_currencies : List String
  execution_mode : String
  enabled_at : Option DateTime
  disabled_at : Option DateTime
deriving DecidableEq, Repr

/-- Column defaults of `LiveTradingState` (models/live_trading.py). -/
def initState : CBState :=
  { daily_loss := 0, daily_profit := 0, daily_trades := 0, daily_wins := 0
    total_loss := 0, total_profit := 0, total_trades := 0, total_wins := 0
    total_trade_amount := 0
    partial_trades := 0, partial_estimated_loss := 0
    partial_estimated_profit := 0, partial_trade_amount := 0
    is_circuit_broken := false, circuit_broken_at := none
    circuit_broken_reason := none
    last_trade_at := none, last_daily_reset := some ⟨0, 0⟩
    is_executing := false, current_trade_id := none }

/-- Column defaults of `LiveTradingConfig` (models/live_trading.py). -/
def defaultConfig : Config :=
  { is_enabled := false, trade_amount := 10
    min_profit_threshold := 3/1000
    max_daily_loss := 30, max_total_loss := 30
    max_retries_per_leg := 2, order_timeout_seconds := 30
    base_currency := "USD", custom_currencies := []
    execution_mode := "sequential"
    enabled_at := none, disabled_at := none }

/-- CircuitBreaker._trigger (circuit_breaker.py 397-423): marks the
breaker broken (only when not already broken), clears the execution
lock, and force-disables `config.is_enabled`.  The numeric formatting
inside the Python reason strings is elided. -/
def trigger (cfg : Config) (s : CBState) (reason : String) (now : DateTime) :
    CBState × Config :=
  let s1 := if s.is_circuit_broken = false then
      { s with is_circuit_broken := true, circuit_broken_at := some now,
               circuit_broken_reason := some reason,
               is_executing := false, current_trade_id := none }
    else s
  let cfg1 := if cfg.is_enabled then
      { cfg with is_enabled := false, disabled_at := some now }
    else cfg
  (s1, cfg1)

/-- The statistics-update stage of CircuitBreaker.record_trade_result
(circuit_breaker.py 213-234), before the limit checks. -/
def bookCompleted (s : CBState) (profit_loss : ℚ) (is_win : Bool)
    (trade_amount : ℚ) (now : DateTime) : CBState :=
  let s1 := if 0 ≤ profit_loss then
      { s with daily_profit := s.daily_profit + profit_loss,
               total_profit := s.total_profit + profit_loss }
    else
      { s with daily_loss := s.daily_loss + |profit_loss|,
               total_loss := s.total_loss + |profit_loss| }
  let s2 := { s1 with daily_trades := s1.daily_trades + 1,
                      total_trades := s1.total_trades + 1,
                      total_trade_amount :=
                        pyOrRat s1.total_trade_amount 0 + trade_amount }
  let s3 := if is_win then
      { s2 with daily_wins := s2.daily_wins + 1,
                total_wins := s2.total_wins + 1 }
    else s2
  { s3 with last_trade_at := some now,
            is_executing := false, current_trade_id := none }

/-- CircuitBreaker.record_trade_result (circuit_breaker.py 203-249):
books a COMPLETED trade, then triggers the breaker when
`daily_loss >= max_daily_loss` or (elif) `total_loss >= max_total_loss`. -/
def record_trade_result (cfg : Config) (s : CBState) (profit_loss : ℚ)
    (is_win : Bool) (trade_amount : ℚ) (now : DateTime) : CBState × Config :=
  let s4 := bookCompleted s profit_loss is_win trade_amount now
  if cfg.max_daily_loss ≤ s4.daily_loss then
    trigger cfg s4 "Daily loss limit reached" now
  else if cfg.max_total_loss ≤ s4.total_loss then
    trigger cfg s4 "Total loss limit reached" now
  else (s4, cfg)

/-- CircuitBreaker.record_partial_trade (circuit_breaker.py 251-291):
books a PARTIAL trade into the partial aggregates only; the held
currency and amount are only logged, never stored on the state row. -/
def record_partial_trade (s : CBState) (trade_amount : ℚ)
    (_held_currency : String) (_held_amount : ℚ)
    (estimated_value_usd : ℚ) (now : DateTime) : CBState :=
  let estimated_pl := estimated_value_usd - trade_amount
  let s1 := { s with partial_trades := pyOrInt s.partial_trades 0 + 1,
                     partial_trade_amount :=
                       pyOrRat s.partial_trade_amount 0 + trade_amount }
  let s2 := if 0 ≤ estimated_pl then
      { s1 with partial_estimated_profit :=
                  pyOrRat s1.partial_estimated_profit 0 + estimated_pl }
    else
      { s1 with partial_estimated_loss :=
                  pyOrRat s1.partial_estimated_loss 0 + |estimated_pl| }
  { s2 with last_trade_at := some now,
            is_executing := false, current_trade_id := none }

/-- The accounting stage of CircuitBreaker.resolve_partial_trade
(circuit_breaker.py 308-337): removes the trade and its previously
booked estimated P/L from the partial aggregates (every removal clamped
at 0 by `max(0, ...)`, and `partial_trades` uses
`(partial_trades or 1) - 1`), then adds the actual P/L to the completed
aggregates. -/
def bookResolution (s : CBState) (original_amount : ℚ)
    (estimated_pl : ℚ) (actual_amount_usd : ℚ) : CBState :=
  let actual_pl := actual_amount_usd - original_amount
  let is_win := 0 ≤ actual_pl
  let s1 := { s with partial_trades := max 0 (pyOrInt s.partial_trades 1 - 1),
                     partial_trade_amount :=
                       max 0 (pyOrRat s.partial_trade_amount 0 - original_amount) }
  let s2 := if 0 ≤ estimated_pl then
      { s1 with partial_estimated_profit :=
                  max 0 (pyOrRat s1.partial_estimated_profit 0 - estimated_pl) }
    else
      { s1 with partial_estimated_loss :=
                  max 0 (pyOrRat s1.partial_estimated_loss 0 - |estimated_pl|) }
  let s3 := if 0 ≤ actual_pl then
      { s2 with daily_profit := s2.daily_profit + actual_pl,
                total_profit := s2.total_profit + actual_pl }
    else
      { s2 with daily_loss := s2.daily_loss + |actual_pl|,
                total_loss := s2.total_loss + |actual_pl| }
  let s4 := { s3 with daily_trades := s3.daily_trades + 1,
                      total_trades := s3.total_trades + 1,
                      total_trade_amount :=
                        pyOrRat s3.total_trade_amount 0 + original_amount }
  let s5 := if is_win then
      { s4 with daily_wins := s4.daily_wins + 1,
                total_wins := s4.total_wins + 1 }
    else s4
  s5

/-- CircuitBreaker.resolve_partial_trade (circuit_breaker.py 293-355):
moves a PARTIAL trade from the partial aggregates to the completed
aggregates with its actual P/L, then runs the same loss-limit checks as
for a completed trade. -/
def resolve_partial_trade (cfg : Config) (s : CBState) (original_amount : ℚ)
    (estimated_pl : ℚ) (actual_amount_usd : ℚ) (now : DateTime) :
    CBState × Config :=
  let s5 := bookResolution s original_amount estimated_pl actual_amount_usd
  if cfg.max_daily_loss ≤ s5.daily_loss then
    trigger cfg s5 "Daily loss limit reached" now
  else if cfg.max_total_loss ≤ s5.total_loss then
    trigger cfg s5 "Total loss limit reached" now
  else (s5, cfg)

/-- Lowercased character list of a string (Python `str.lower()`). -/
def strLowerChars (s : String) : List Char := s.data.map Char.toLower

/-- Substring test on character lists (Python `needle in hay`). -/
def hasSub (needle : List Char) : List Char → Bool
  | [] => needle.isEmpty
  | c :: rest => needle.isPrefixOf (c :: rest) || hasSub needle rest

/-- True when the stored break reason (a nullable text column) contains
the substring "daily" after lowercasing, exactly the test
`state.circuit_broken_reason and 'daily' in state.circuit_broken_reason.lower()`. -/
def reasonHasDaily : Option String → Bool
  | none => false
  | some r => hasSub "daily".data (strLowerChars r)

/-- CircuitBreaker._check_daily_reset (circuit_breaker.py 145-169), run
on every `get_state` read: when the stored `last_daily_reset` falls on
an earlier UTC date than now, zero the daily aggregates, stamp the
reset, and clear the break when it was daily-loss triggered. -/
def check_daily_reset (s : CBState) (now : DateTime) : CBState :=
  match s.last_daily_reset with
  | none => s
  | some t =>
    if t.day < now.day then
      let s1 := { s with daily_loss := 0, daily_profit := 0,
                         daily_trades := 0, daily_wins := 0,
                         last_daily_reset := some now }
      if s1.is_circuit_broken && reasonHasDaily s1.circuit_broken_reason then
        { s1 with is_circuit_broken := false, circuit_broken_at := none,
                  circuit_broken_reason := none }
      else s1
    else s

/-- Loss-limit lower bound `MAX_LOSS_MIN` (config.py line 69). -/
def MAX_LOSS_MIN : ℚ := 10

/-- Loss-limit upper bound `MAX_LOSS_MAX` (config.py line 70). -/
def MAX_LOSS_MAX : ℚ := 200

/-- Allowed base currencies `BASE_CURRENCY_OPTIONS` (config.py line 72). -/
def BASE_CURRENCY_OPTIONS : List String :=
  ["ALL", "USD", "EUR", "USDT", "BTC", "ETH", "CUSTOM"]

/-- One `updates` dictionary for `ConfigManager.update_settings`: a key
is present exactly when the option is `some`. -/
structure SettingsUpdates where
  trade_amount : Option ℚ := none
  min_profit_threshold : Option ℚ := none
  max_daily_loss : Option ℚ := none
  max_total_loss : Option ℚ := none
  max_retries_per_leg : Option Int := none
  order_timeout_seconds : Option Int := none
  base_currency : Option String := none
  custom_currencies : Option (List String) := none
deriving Repr

/-- The `trade_amount` branch of update_settings (config.py 149-154):
a non-positive value raises ValueError. -/
def applyTradeAmount (cfg : Config) : Option ℚ → Except String Config
  | none => Except.ok cfg
  | some v =>
    if 0 < v then Except.ok { cfg with trade_amount := v }
    else Except.error "trade_amount must be greater than 0"

/-- The `min_profit_threshold` branch of update_settings (config.py
156-165): a value strictly above 0.01 is treated as a percentage and
divided by 100; the result must land in [0, 0.009] or ValueError. -/
def applyMinProfit (cfg : Config) : Option ℚ → Except String Config
  | none => Except.ok cfg
  | some v0 =>
    let v := if 1/100 < v0 then v0 / 100 else v0
    if 0 ≤ v ∧ v ≤ 9/1000 then
      Except.ok { cfg with min_profit_threshold := v }
    else Except.error "min_profit_threshold must be between 0 and 0.9%"

/-- The `max_daily_loss` branch of update_settings (config.py 167-172):
out of [10, 200] raises ValueError. -/
def applyMaxDaily (cfg : Config) : Option ℚ → Except String Config
  | none => Except.ok cfg
  | some v =>
    if MAX_LOSS_MIN ≤ v ∧ v ≤ MAX_LOSS_MAX then
      Except.ok { cfg with max_daily_loss := v }
    else Except.error "max_daily_loss must be between 10.0 and 200.0"

/-- The `max_total_loss` branch of update_settings (config.py 174-179):
out of [10, 200] raises ValueError. -/
def applyMaxTotal (cfg : Config) : Option ℚ → Except String Config
  | none => Except.ok cfg
  | some v =>
    if MAX_LOSS_MIN ≤ v ∧ v ≤ MAX_LOSS_MAX then
      Except.ok { cfg with max_total_loss := v }
    else Except.error "max_total_loss must be between 10.0 and 200.0"

/-- The `max_retries_per_leg` branch of update_settings (config.py
181-184): an out-of-range value is silently skipped, no error. -/
def applyRetries (cfg : Config) : Option Int → Config
  | none => cfg
  | some v =>
    if 0 ≤ v ∧ v ≤ 5 then { cfg with max_retries_per_leg := v } else cfg

/-- The `order_timeout_seconds` branch of update_settings (config.py
186-189): an out-of-range value is silently skipped, no error. -/
def applyTimeout (cfg : Config) : Option Int → Config
  | none => cfg
  | some v =>
    if 10 ≤ v ∧ v ≤ 120 then { cfg with order_timeout_seconds := v }
    else cfg

/-- The `base_currency` branch of update_settings (config.py 191-194):
a value outside BASE_CURRENCY_OPTIONS is silently skipped, no error. -/
def applyBase (cfg : Config) : Option String → Config
  | none => cfg
  | some v =>
    if BASE_CURRENCY_OPTIONS.contains v then { cfg with base_currency := v }
    else cfg

/-- The `custom_currencies` branch of update_settings (config.py
196-197): stored without validation. -/
def applyCustom (cfg : Config) : Option (List String) → Config
  | none => cfg
  | some l => { cfg with custom_currencies := l }

/-- ConfigManager.update_settings (config.py 136-214), the keys
processed in source order with ValueError short-circuiting the rest
(the Python `raise` aborts the whole update and rolls back). -/
def update_settings (cfg : Config) (u : SettingsUpdates) :
    Except String Config :=
  (applyTradeAmount cfg u.trade_amount).bind fun cfg =>
  (applyMinProfit cfg u.min_profit_threshold).bind fun cfg =>
  (applyMaxDaily cfg u.max_daily_loss).bind fun cfg =>
  (applyMaxTotal cfg u.max_total_loss).bind fun cfg =>
  Except.ok (applyCustom (applyBase (applyTimeout (applyRetries cfg
    u.max_retries_per_leg) u.order_timeout_seconds) u.base_currency)
    u.custom_currencies)

/-- TradeGuard.check_opportunity_valid (guard.py 161-182), restricted to
its one implemented check: reject when the expected profit percentage is
strictly below `min_profit_threshold * 100`.  Returns
`(accepted, rejection reason)`; the formatted numbers in the reason are
elided. -/
def check_opportunity_valid (cfg : Config) (expected_profit_pct : ℚ) :
    Bool × Option String :=
  if expected_profit_pct < cfg.min_profit_threshold * 100 then
    (false, some "Profit below threshold")
  else (true, none)

/-- The profitable filter of UnifiedScanner._process_opportunities
(scanner.py 151-153): keep an opportunity (here, its
`net_profit_pct` field) when it is at least `min_profit_threshold*100`. -/
def profitableFilter (min_profit_threshold : ℚ) (opportunities : List ℚ) :
    List ℚ :=
  let min_threshold_pct := min_profit_threshold * 100
  opportunities.filter (fun o => min_threshold_pct ≤ o)

/-- The `CURRENCY_MAP` lookup with identity fallback,
`CURRENCY_MAP.get(c, c)` (executor.py 18-21). -/
def currencyMap (c : String) : String :=
  if c = "BTC" then "XBT" else if c = "DOGE" then "XDG" else c

/-- `QUOTE_CURRENCIES` (executor.py 24). -/
def QUOTE_CURRENCIES : List String :=
  ["USD", "USDT", "EUR", "ZUSD", "ZEUR", "GBP", "ZGBP", "CAD", "ZCAD",
   "JPY", "ZJPY"]

/-- LiveExecutor._determine_pair_and_side (executor.py 180-208).
Buys when the source currency is a quote currency or starts with "Z";
otherwise sells (both sub-branches of the Python `else` build the
`from/to` pair with side sell). -/
def determine_pair_and_side (fromCur toCur : String) : String × String :=
  let fromNorm := currencyMap fromCur
  let toNorm := currencyMap toCur
  if QUOTE_CURRENCIES.contains fromCur || "Z".data.isPrefixOf fromCur.data then
    (toNorm ++ fromNorm, "buy")
  else
    if QUOTE_CURRENCIES.contains toCur || "Z".data.isPrefixOf toCur.data then
      (fromNorm ++ toNorm, "sell")
    else
      (fromNorm ++ toNorm, "sell")

/-- Outcome of one `_execute_leg` call, as far as `execute_arbitrage`
consumes it: success flag, proceeds passed to the next leg, error text. -/
structure LegOutcome where
  success : Bool
  outputAmount : ℚ
  error : String
deriving DecidableEq, Repr

/-- The fields of a `TradeExecution` record that `execute_arbitrage`
assigns (executor.py 86-138), minus timing and leg logs. -/
structure TradeExec where
  status : String
  errorMessage : Option String
  heldCurrency : Option String
  heldAmount : Option ℚ
  heldValueUsd : Option ℚ
  amountOut : Option ℚ
  profitLoss : Option ℚ
  profitLossPct : Option ℚ
  currentLeg : Nat
deriving DecidableEq, Repr

/-- The leg loop of LiveExecutor.execute_arbitrage (executor.py 252-295):
`remaining` counts the legs still to run, `i` the 0-based index of the
next leg, `curCur`/`curAmt` the carried currency and amount.  On a leg
failure the loop breaks with PARTIAL (i > 0) or FAILED (i = 0), always
recording the carried currency and amount as held, but fetching a
snapshot USD value only when i > 0.  Returns the record and the carried
amount left when the loop ends. -/
def execLegs (legResult : Nat → LegOutcome) (usdValue : String → ℚ → Option ℚ)
    (currencies : List String) :
    Nat → Nat → String → ℚ → TradeExec → TradeExec × ℚ
  | 0, _, _, curAmt, ex => (ex, curAmt)
  | remaining + 1, i, curCur, curAmt, ex =>
    let res := legResult i
    let ex1 := { ex with currentLeg := i + 1 }
    if res.success then
      execLegs legResult usdValue currencies remaining (i + 1)
        (currencies.getD (i + 1) "") res.outputAmount ex1
    else
      ({ ex1 with
          status := if 0 < i then "PARTIAL" else "FAILED",
          errorMessage :=
            some ("Leg " ++ toString (i + 1) ++ " failed: " ++ res.error),
          heldCurrency := some curCur,
          heldAmount := some curAmt,
          heldValueUsd := if 0 < i then usdValue curCur curAmt else none },
       curAmt)

/-- LiveExecutor.execute_arbitrage (executor.py 210-343), with the
environment abstracted: `markOk` is the result of
`circuit_breaker.mark_executing`, `legResult i` the outcome of
`_execute_leg` for leg index `i`, and `usdValue` the `_get_usd_value`
snapshot lookup.  The circuit-breaker bookkeeping calls after the loop
are covered by the circuit-breaker model above. -/
def execute_arbitrage (currencies : List String) (amount : ℚ)
    (markOk : Bool) (legResult : Nat → LegOutcome)
    (usdValue : String → ℚ → Option ℚ) : TradeExec :=
  let numLegs := currencies.length - 1
  let ex0 : TradeExec :=
    { status := "EXECUTING", errorMessage := none, heldCurrency := none,
      heldAmount := none, heldValueUsd := none, amountOut := none,
      profitLoss := none, profitLossPct := none, currentLeg := 0 }
  if markOk = false then
    { ex0 with status := "FAILED",
               errorMessage := some "Another trade is already executing" }
  else
    let r := execLegs legResult usdValue currencies numLegs 0
      (currencies.headD "") amount ex0
    if r.fst.status = "EXECUTING" then
      { r.fst with status := "COMPLETED", amountOut := some r.snd,
                   profitLoss := some (r.snd - amount),
                   profitLossPct := some ((r.snd - amount) / amount * 100) }
    else r.fst

/-- C3: recording a partial trade leaves the completed aggregates
(daily and total loss, profit, trade and win counts) and the broken flag
unchanged; `record_partial_trade` performs no loss-limit check, so a
partial trade alone can never trip the daily or total loss limits. -/
theorem c3_partial_trade_frame (s : CBState) (amt hamt ev : ℚ)
    (hc : String) (now : DateTime) :
    let s2 := record_partial_trade s amt hc hamt ev now
    s2.daily_loss = s.daily_loss ∧ s2.total_loss = s.total_loss ∧
    s2.daily_profit = s.daily_profit ∧ s2.total_profit = s.total_profit ∧
    s2.daily_trades = s.daily_trades ∧ s2.total_trades = s.total_trades ∧
    s2.daily_wins = s.daily_wins ∧ s2.total_wins = s.total_wins ∧
    s2.is_circuit_broken = s.is_circuit_broken := by
  intro s2
  simp only [record_partial_trade, s2]
  split <;> simp

/-- C9: an opportunity whose net profit percentage equals
`min_profit_threshold * 100` exactly passes both the guard validity
check and the scanner profitable filter. -/
theorem c9_threshold_equality_accepted (cfg : Config) :
    (check_opportunity_valid cfg (cfg.min_profit_threshold * 100)).fst
      = true ∧
    profitableFilter cfg.min_profit_threshold
        [cfg.min_profit_threshold * 100]
      = [cfg.min_profit_threshold * 100] := by
  constructor
  · simp [check_opportunity_valid]
  · simp [profitableFilter]

/-- C6 counterexample: "ZEC" is not in the quote-currency set, so the
claim demands pair ZEC/XBT with side sell for the hop ZEC to BTC; the
code instead takes the buy branch because the symbol starts with "Z". -/
theorem c6_counterexample :
    determine_pair_and_side "ZEC" "BTC" = ("XBTZEC", "buy") ∧
    QUOTE_CURRENCIES.contains "ZEC" = false := by decide

/-- C6 amended: the buy branch is taken exactly when the from-currency
is in the quote set or starts with the letter Z; otherwise the pair is
from/to (normalized) with side sell. -/
theorem c6_pair_and_side (fromCur toCur : String) :
    determine_pair_and_side fromCur toCur =
      if QUOTE_CURRENCIES.contains fromCur
          || "Z".data.isPrefixOf fromCur.data then
        (currencyMap toCur ++ currencyMap fromCur, "buy")
      else (currencyMap fromCur ++ currencyMap toCur, "sell") := by
  unfold determine_pair_and_side
  by_cases h : (QUOTE_CURRENCIES.contains fromCur
      || "Z".data.isPrefixOf fromCur.data) = true
  · simp [h]
  · simp only [Bool.not_eq_true] at h
    simp only [h, if_neg, Bool.false_eq_true, if_false]
    split <;> rfl

/-- Bind on a successful Except passes the value through. -/
theorem exceptBind_ok {α β ε : Type} (x : α) (f : α → Except ε β) :
    (Except.ok x).bind f = f x := rfl

/-- Bind on a failed Except propagates the error. -/
theorem exceptBind_error {α β ε : Type} (e : ε) (f : α → Except ε β) :
    (Except.error e).bind f = Except.error e := rfl

/-- C10: a submitted `min_profit_threshold` strictly above 0.01 is
divided by 100 (percentage heuristic), a value at most 0.01 is kept
as-is, and the update succeeds exactly when the resulting value lies in
[0, 0.009], otherwise a ValueError is raised; in particular 0.3 is
stored as 0.003. -/
theorem c10_min_profit_heuristic (cfg : Config) (v : ℚ) :
    update_settings cfg { min_profit_threshold := some v } =
      (if 0 ≤ (if 1/100 < v then v / 100 else v) ∧
          (if 1/100 < v then v / 100 else v) ≤ 9/1000 then
        Except.ok { cfg with min_profit_threshold :=
                      if 1/100 < v then v / 100 else v }
      else
        Except.error "min_profit_threshold must be between 0 and 0.9%") ∧
    update_settings defaultConfig { min_profit_threshold := some (3/10) } =
      Except.ok { defaultConfig with min_profit_threshold := 3/1000 } := by
  have key : ∀ (c : Config) (w : ℚ),
      update_settings c { min_profit_threshold := some w } =
        (if 0 ≤ (if 1/100 < w then w / 100 else w) ∧
            (if 1/100 < w then w / 100 else w) ≤ 9/1000 then
          Except.ok { c with min_profit_threshold :=
                        if 1/100 < w then w / 100 else w }
        else
          Except.error "min_profit_threshold must be between 0 and 0.9%") := by
    intro c w
    simp only [update_settings, applyTradeAmount, applyMinProfit,
      exceptBind_ok]
    split <;> split <;> rfl
  refine ⟨key cfg v, ?_⟩
  rw [key]
  norm_num

/-- C7 counterexample: an out-of-range `max_retries_per_leg` (99), an
out-of-range `order_timeout_seconds` (999), and an unknown
`base_currency` ("FOO") are all silently ignored: the update returns
the unchanged configuration instead of raising an error. -/
theorem c7_counterexample :
    update_settings defaultConfig { max_retries_per_leg := some 99 }
      = Except.ok defaultConfig ∧
    update_settings defaultConfig { order_timeout_seconds := some 999 }
      = Except.ok defaultConfig ∧
    update_settings defaultConfig { base_currency := some "FOO" }
      = Except.ok defaultConfig :=
  ⟨rfl, rfl, rfl⟩

/-- C7 amended: only the monetary keys (trade_amount,
min_profit_threshold, max_daily_loss, max_total_loss) raise an error on
invalid values; out-of-range max_retries_per_leg, order_timeout_seconds
and base_currency values are silently dropped, leaving the stored
configuration unchanged. -/
theorem c7_validation (cfg : Config) (v w : Int) (bc : String) (x t m : ℚ)
    (hv : ¬(0 ≤ v ∧ v ≤ 5)) (hw : ¬(10 ≤ w ∧ w ≤ 120))
    (hb : bc ∉ BASE_CURRENCY_OPTIONS)
    (hx : ¬(MAX_LOSS_MIN ≤ x ∧ x ≤ MAX_LOSS_MAX))
    (ht : ¬(0 < t))
    (hm : ¬(0 ≤ (if 1/100 < m then m / 100 else m) ∧
        (if 1/100 < m then m / 100 else m) ≤ 9/1000)) :
    update_settings cfg { max_retries_per_leg := some v } = Except.ok cfg ∧
    update_settings cfg { order_timeout_seconds := some w } = Except.ok cfg ∧
    update_settings cfg { base_currency := some bc } = Except.ok cfg ∧
    update_settings cfg { max_daily_loss := some x }
      = Except.error "max_daily_loss must be between 10.0 and 200.0" ∧
    update_settings cfg { max_total_loss := some x }
      = Except.error "max_total_loss must be between 10.0 and 200.0" ∧
    update_settings cfg { trade_amount := some t }
      = Except.error "trade_amount must be greater than 0" ∧
    update_settings cfg { min_profit_threshold := some m }
      = Except.error "min_profit_threshold must be between 0 and 0.9%" := by
  have h7 : update_settings cfg { min_profit_threshold := some m }
      = Except.error "min_profit_threshold must be between 0 and 0.9%" := by
    simp only [update_settings, applyTradeAmount, applyMinProfit,
      exceptBind_ok]
    rw [if_neg hm]
    rfl
  refine ⟨?_, ?_, ?_, ?_, ?_, ?_, h7⟩ <;>
    simp [update_settings, applyTradeAmount, applyMinProfit, applyMaxDaily,
      applyMaxTotal, applyRetries, applyTimeout, applyBase, applyCustom,
      exceptBind_ok, exceptBind_error, hv, hw, hb, hx, ht]

/-- C7 witness: the amended behavior at retries 99, timeout 999,
base currency FOO, loss limit 5, trade amount 0 and profit
threshold 5 (treated as 5 percent, out of range). -/
theorem c7_validation_witness :
    update_settings defaultConfig { max_retries_per_leg := some 99 }
      = Except.ok defaultConfig ∧
    update_settings defaultConfig { order_timeout_seconds := some 999 }
      = Except.ok defaultConfig ∧
    update_settings defaultConfig { base_currency := some "FOO" }
      = Except.ok defaultConfig ∧
    update_settings defaultConfig { max_daily_loss := some 5 }
      = Except.error "max_daily_loss must be between 10.0 and 200.0" ∧
    update_settings defaultConfig { max_total_loss := some 5 }
      = Except.error "max_total_loss must be between 10.0 and 200.0" ∧
    update_settings defaultConfig { trade_amount := some 0 }
      = Except.error "trade_amount must be greater than 0" ∧
    update_settings defaultConfig { min_profit_threshold := some 5 }
      = Except.error "min_profit_threshold must be between 0 and 0.9%" :=
  c7_validation defaultConfig 99 999 "FOO" 5 0 5 (by decide) (by decide)
    (by decide) (by norm_num [MAX_LOSS_MIN, MAX_LOSS_MAX]) (by norm_num)
    (by norm_num)

/-- A state broken yesterday by the daily loss limit, used as a witness
input for the daily rollover. -/
def brokenDailyState : CBState :=
  { initState with
      daily_loss := 35, daily_profit := 2, daily_trades := 4,
      daily_wins := 1, total_loss := 35,
      is_circuit_broken := true, circuit_broken_at := some ⟨0, 7⟩,
      circuit_broken_reason := some "Daily loss limit reached",
      last_daily_reset := some ⟨0, 0⟩ }

/-- C4: when the stored `last_daily_reset` falls on an earlier UTC date
than the current read, the daily aggregates are zeroed; and when the
breaker was broken, it is auto-reset exactly when the recorded break
reason contains the word daily (case-insensitively). -/
theorem c4_daily_rollover (s : CBState) (now t : DateTime)
    (h1 : s.last_daily_reset = some t) (h2 : t.day < now.day) :
    let s2 := check_daily_reset s now
    s2.daily_loss = 0 ∧ s2.daily_profit = 0 ∧ s2.daily_trades = 0 ∧
    s2.daily_wins = 0 ∧
    (s.is_circuit_broken = true →
      (s2.is_circuit_broken = false ↔
        reasonHasDaily s.circuit_broken_reason = true)) := by
  intro s2
  simp only [s2, check_daily_reset, h1]
  rw [if_pos h2]
  by_cases hb : s.is_circuit_broken <;>
    by_cases hr : reasonHasDaily s.circuit_broken_reason <;>
      simp [hb, hr]

/-- C4 witness: the rollover at a state broken yesterday with reason
"Daily loss limit reached". -/
theorem c4_daily_rollover_witness :
    (check_daily_reset brokenDailyState ⟨1, 0⟩).daily_loss = 0 ∧
    (check_daily_reset brokenDailyState ⟨1, 0⟩).daily_profit = 0 ∧
    (check_daily_reset brokenDailyState ⟨1, 0⟩).daily_trades = 0 ∧
    (check_daily_reset brokenDailyState ⟨1, 0⟩).daily_wins = 0 ∧
    (brokenDailyState.is_circuit_broken = true →
      ((check_daily_reset brokenDailyState ⟨1, 0⟩).is_circuit_broken = false ↔
        reasonHasDaily brokenDailyState.circuit_broken_reason = true)) :=
  c4_daily_rollover brokenDailyState ⟨1, 0⟩ ⟨0, 0⟩ rfl (by decide)

/-- pyOrRat with default 0 is the identity. -/
theorem pyOrRat_zero (x : ℚ) : pyOrRat x 0 = x := by
  unfold pyOrRat; split <;> simp_all

/-- After a trigger the breaker is broken with a recorded timestamp and
reason (given that an already-broken state had them recorded), and the
config is force-disabled. -/
theorem trigger_breaks (cfg : Config) (s : CBState) (r : String)
    (now : DateTime)
    (hinv : s.is_circuit_broken = true →
      s.circuit_broken_at ≠ none ∧ s.circuit_broken_reason ≠ none) :
    (trigger cfg s r now).fst.is_circuit_broken = true ∧
    (trigger cfg s r now).fst.circuit_broken_at ≠ none ∧
    (trigger cfg s r now).fst.circuit_broken_reason ≠ none ∧
    (trigger cfg s r now).snd.is_enabled = false := by
  by_cases hb : s.is_circuit_broken
  · obtain ⟨h1, h2⟩ := hinv hb
    by_cases he : cfg.is_enabled <;> simp [trigger, hb, he, h1, h2]
  · by_cases he : cfg.is_enabled <;> simp [trigger, hb, he]

/-- A trigger changes none of the trading aggregates. -/
theorem trigger_fst_frame (cfg : Config) (s : CBState) (r : String)
    (now : DateTime) :
    (trigger cfg s r now).fst.daily_loss = s.daily_loss ∧
    (trigger cfg s r now).fst.total_loss = s.total_loss ∧
    (trigger cfg s r now).fst.daily_profit = s.daily_profit ∧
    (trigger cfg s r now).fst.total_profit = s.total_profit ∧
    (trigger cfg s r now).fst.daily_trades = s.daily_trades ∧
    (trigger cfg s r now).fst.total_trades = s.total_trades ∧
    (trigger cfg s r now).fst.partial_trades = s.partial_trades ∧
    (trigger cfg s r now).fst.partial_estimated_profit
      = s.partial_estimated_profit ∧
    (trigger cfg s r now).fst.partial_estimated_loss
      = s.partial_estimated_loss := by
  unfold trigger
  by_cases hb : s.is_circuit_broken = false <;> simp [hb]

/-- How booking a completed trade moves the loss aggregates, and that it
leaves the break fields alone. -/
theorem bookCompleted_fields (s : CBState) (pl : ℚ) (win : Bool)
    (amt : ℚ) (now : DateTime) :
    (bookCompleted s pl win amt now).daily_loss
        = (if 0 ≤ pl then s.daily_loss else s.daily_loss + |pl|) ∧
    (bookCompleted s pl win amt now).total_loss
        = (if 0 ≤ pl then s.total_loss else s.total_loss + |pl|) ∧
    (bookCompleted s pl win amt now).is_circuit_broken
        = s.is_circuit_broken ∧
    (bookCompleted s pl win amt now).circuit_broken_at
        = s.circuit_broken_at ∧
    (bookCompleted s pl win amt now).circuit_broken_reason
        = s.circuit_broken_reason := by
  unfold bookCompleted
  by_cases hp : 0 ≤ pl <;> by_cases hw : win = true <;> simp [hp, hw]

/-- C2: when booking a completed trade brings the daily loss to at least
`max_daily_loss`, or the total loss to at least `max_total_loss`, the
call leaves the breaker broken with a recorded timestamp and reason and
forces `config.is_enabled` off.  The invariant hypothesis (a broken
state always carries its timestamp and reason) holds in every reachable
state because only the trigger ever sets the broken flag. -/
theorem c2_loss_limit_breaks (cfg : Config) (s : CBState) (pl : ℚ)
    (win : Bool) (amt : ℚ) (now : DateTime)
    (hinv : s.is_circuit_broken = true →
      s.circuit_broken_at ≠ none ∧ s.circuit_broken_reason ≠ none)
    (hlim : cfg.max_daily_loss ≤ (bookCompleted s pl win amt now).daily_loss
      ∨ cfg.max_total_loss ≤ (bookCompleted s pl win amt now).total_loss) :
    (record_trade_result cfg s pl win amt now).fst.is_circuit_broken
      = true ∧
    (record_trade_result cfg s pl win amt now).fst.circuit_broken_at
      ≠ none ∧
    (record_trade_result cfg s pl win amt now).fst.circuit_broken_reason
      ≠ none ∧
    (record_trade_result cfg s pl win amt now).snd.is_enabled = false := by
  have hinv4 : (bookCompleted s pl win amt now).is_circuit_broken = true →
      (bookCompleted s pl win amt now).circuit_broken_at ≠ none ∧
      (bookCompleted s pl win amt now).circuit_broken_reason ≠ none := by
    obtain ⟨-, -, h3, h4, h5⟩ := bookCompleted_fields s pl win amt now
    rw [h3, h4, h5]; exact hinv
  unfold record_trade_result
  by_cases h1 : cfg.max_daily_loss ≤ (bookCompleted s pl win amt now).daily_loss
  · rw [if_pos h1]
    exact trigger_breaks cfg _ _ now hinv4
  · rw [if_neg h1]
    rcases hlim with hl | hl
    · exact absurd hl h1
    · rw [if_pos hl]
      exact trigger_breaks cfg _ _ now hinv4

/-- C2 witness: a 35 dollar loss recorded on the default state with the
default 30 dollar daily limit breaks the breaker and disables trading. -/
theorem c2_loss_limit_breaks_witness :
    (record_trade_result defaultConfig initState (-35) false 10
        ⟨0, 0⟩).fst.is_circuit_broken = true ∧
    (record_trade_result defaultConfig initState (-35) false 10
        ⟨0, 0⟩).fst.circuit_broken_at ≠ none ∧
    (record_trade_result defaultConfig initState (-35) false 10
        ⟨0, 0⟩).fst.circuit_broken_reason ≠ none ∧
    (record_trade_result defaultConfig initState (-35) false 10
        ⟨0, 0⟩).snd.is_enabled = false :=
  c2_loss_limit_breaks defaultConfig initState (-35) false 10 ⟨0, 0⟩
    (by decide) (by left; norm_num [bookCompleted, defaultConfig, initState])

/-- How the resolution booking moves the aggregates when the partial
books actually contain the trade being resolved: the partial count drops
by one, the completed counters rise by one, the completed net gains the
actual P/L and the partial estimated net loses the estimated P/L. -/
theorem bookResolution_fields (s : CBState) (o e a : ℚ)
    (h1 : 1 ≤ s.partial_trades)
    (h2 : 0 ≤ e → e ≤ s.partial_estimated_profit)
    (h3 : e < 0 → -e ≤ s.partial_estimated_loss) :
    (bookResolution s o e a).partial_trades = s.partial_trades - 1 ∧
    (bookResolution s o e a).daily_trades = s.daily_trades + 1 ∧
    (bookResolution s o e a).total_trades = s.total_trades + 1 ∧
    (bookResolution s o e a).daily_profit
        - (bookResolution s o e a).daily_loss
      = s.daily_profit - s.daily_loss + (a - o) ∧
    (bookResolution s o e a).partial_estimated_profit
        - (bookResolution s o e a).partial_estimated_loss
      = s.partial_estimated_profit - s.partial_estimated_loss - e := by
  have hne : s.partial_trades ≠ 0 := by omega
  have hm1 : max 0 (s.partial_trades - 1) = s.partial_trades - 1 :=
    max_eq_right (by omega)
  by_cases he : 0 ≤ e
  · have hp : max 0 (s.partial_estimated_profit - e)
        = s.partial_estimated_profit - e := max_eq_right (by linarith [h2 he])
    by_cases ha : 0 ≤ a - o
    · simp [bookResolution, he, ha, pyOrRat_zero, pyOrInt, hne, hm1, hp]
      refine ⟨?_, ?_⟩ <;> first | trivial | ring
    · have ha2 : a - o < 0 := not_le.mp ha
      simp [bookResolution, he, ha, pyOrRat_zero, pyOrInt, hne, hm1, hp,
        abs_of_neg ha2]
      refine ⟨?_, ?_⟩ <;> first | trivial | ring
  · have he2 : e < 0 := not_le.mp he
    have hl : max 0 (s.partial_estimated_loss + e)
        = s.partial_estimated_loss + e := max_eq_right (by linarith [h3 he2])
    by_cases ha : 0 ≤ a - o
    · simp [bookResolution, he, ha, pyOrRat_zero, pyOrInt, hne, hm1, hl,
        abs_of_neg he2]
      refine ⟨?_, ?_⟩ <;> first | trivial | ring
    · have ha2 : a - o < 0 := not_le.mp ha
      simp [bookResolution, he, ha, pyOrRat_zero, pyOrInt, hne, hm1, hl,
        abs_of_neg he2, abs_of_neg ha2]
      refine ⟨?_, ?_⟩ <;> first | trivial | ring

/-- C1 counterexample: resolving against a state whose partial counter
is already 0 (reachable: reset_partial_stats zeroes the counters while
the PARTIAL trade row still exists) leaves `partial_trades` at 0, so it
does not decrease by exactly 1 as claimed. -/
theorem c1_counterexample :
    (resolve_partial_trade defaultConfig initState 10 5 12
        ⟨0, 0⟩).fst.partial_trades = 0 ∧
    initState.partial_trades - 1 = -1 ∧
    ¬ ((resolve_partial_trade defaultConfig initState 10 5 12
        ⟨0, 0⟩).fst.partial_trades = initState.partial_trades - 1) := by
  have h1 : (resolve_partial_trade defaultConfig initState 10 5 12
      ⟨0, 0⟩).fst.partial_trades = 0 := by
    norm_num [resolve_partial_trade, bookResolution, trigger, pyOrInt,
      pyOrRat, initState, defaultConfig]
  refine ⟨h1, by decide, ?_⟩
  rw [h1]
  decide

/-- C1 amended: when the partial books actually contain the trade being
resolved (the partial count is at least 1 and the estimated P/L being
removed does not exceed the corresponding partial aggregate, so none of
the max(0, ...) clamps bite), resolution decreases `partial_trades` by
exactly 1, increases `daily_trades` and `total_trades` by exactly 1, and
the algebraic sum of the changes across the completed daily net and the
partial estimated net equals actual P/L minus estimated P/L. -/
theorem c1_resolution_accounting (cfg : Config) (s : CBState)
    (o e a : ℚ) (now : DateTime)
    (h1 : 1 ≤ s.partial_trades)
    (h2 : 0 ≤ e → e ≤ s.partial_estimated_profit)
    (h3 : e < 0 → -e ≤ s.partial_estimated_loss) :
    (resolve_partial_trade cfg s o e a now).fst.partial_trades
      = s.partial_trades - 1 ∧
    (resolve_partial_trade cfg s o e a now).fst.daily_trades
      = s.daily_trades + 1 ∧
    (resolve_partial_trade cfg s o e a now).fst.total_trades
      = s.total_trades + 1 ∧
    (((resolve_partial_trade cfg s o e a now).fst.daily_profit
        - (resolve_partial_trade cfg s o e a now).fst.daily_loss)
      - (s.daily_profit - s.daily_loss))
    + (((resolve_partial_trade cfg s o e a now).fst.partial_estimated_profit
        - (resolve_partial_trade cfg s o e a now).fst.partial_estimated_loss)
      - (s.partial_estimated_profit - s.partial_estimated_loss))
      = (a - o) - e := by
  obtain ⟨f1, f2, f3, f4, f5⟩ := bookResolution_fields s o e a h1 h2 h3
  unfold resolve_partial_trade
  by_cases hA : cfg.max_daily_loss ≤ (bookResolution s o e a).daily_loss
  · rw [if_pos hA]
    obtain ⟨t1, t2, t3, t4, t5, t6, t7, t8, t9⟩ := trigger_fst_frame cfg
      (bookResolution s o e a) "Daily loss limit reached" now
    refine ⟨?_, ?_, ?_, ?_⟩
    · rw [t7, f1]
    · rw [t5, f2]
    · rw [t6, f3]
    · rw [t3, t1, t8, t9]; linarith [f4, f5]
  · rw [if_neg hA]
    by_cases hB : cfg.max_total_loss ≤ (bookResolution s o e a).total_loss
    · rw [if_pos hB]
      obtain ⟨t1, t2, t3, t4, t5, t6, t7, t8, t9⟩ := trigger_fst_frame cfg
        (bookResolution s o e a) "Total loss limit reached" now
      refine ⟨?_, ?_, ?_, ?_⟩
      · rw [t7, f1]
      · rw [t5, f2]
      · rw [t6, f3]
      · rw [t3, t1, t8, t9]; linarith [f4, f5]
    · rw [if_neg hB]
      exact ⟨f1, f2, f3, by linarith [f4, f5]⟩

/-- A state holding exactly one unresolved partial trade booked with an
estimated profit of 5, used as a witness input for resolution. -/
def partialState : CBState :=
  { initState with partial_trades := 1, partial_estimated_profit := 5,
                   partial_trade_amount := 10 }

/-- C1 witness: the amended accounting at a state with one booked
partial trade, estimated P/L 5, actual proceeds 12 on a 10 notional. -/
theorem c1_resolution_accounting_witness :
    (resolve_partial_trade defaultConfig partialState 10 5 12
        ⟨0, 0⟩).fst.partial_trades = partialState.partial_trades - 1 ∧
    (resolve_partial_trade defaultConfig partialState 10 5 12
        ⟨0, 0⟩).fst.daily_trades = partialState.daily_trades + 1 ∧
    (resolve_partial_trade defaultConfig partialState 10 5 12
        ⟨0, 0⟩).fst.total_trades = partialState.total_trades + 1 ∧
    (((resolve_partial_trade defaultConfig partialState 10 5 12
          ⟨0, 0⟩).fst.daily_profit
        - (resolve_partial_trade defaultConfig partialState 10 5 12
            ⟨0, 0⟩).fst.daily_loss)
      - (partialState.daily_profit - partialState.daily_loss))
    + (((resolve_partial_trade defaultConfig partialState 10 5 12
          ⟨0, 0⟩).fst.partial_estimated_profit
        - (resolve_partial_trade defaultConfig partialState 10 5 12
            ⟨0, 0⟩).fst.partial_estimated_loss)
      - (partialState.partial_estimated_profit
          - partialState.partial_estimated_loss))
      = (12 - 10) - 5 :=
  c1_resolution_accounting defaultConfig partialState 10 5 12 ⟨0, 0⟩
    (by decide) (by norm_num [partialState, initState])
    (by norm_num)

/-- C5 counterexample: a 3-leg cycle whose first leg fails ends FAILED,
but the execution record still carries the start currency and input
amount in `held_currency` and `held_amount`; only `held_value_usd` is
left unset, refuting the claim that all three are unset. -/
theorem c5_counterexample :
    (execute_arbitrage ["USD", "BTC", "ETH", "USD"] 100 true
        (fun _ => ⟨false, 0, "order failed"⟩)
        (fun _ _ => some 999)).status = "FAILED" ∧
    (execute_arbitrage ["USD", "BTC", "ETH", "USD"] 100 true
        (fun _ => ⟨false, 0, "order failed"⟩)
        (fun _ _ => some 999)).heldCurrency = some "USD" ∧
    (execute_arbitrage ["USD", "BTC", "ETH", "USD"] 100 true
        (fun _ => ⟨false, 0, "order failed"⟩)
        (fun _ _ => some 999)).heldAmount = some 100 ∧
    (execute_arbitrage ["USD", "BTC", "ETH", "USD"] 100 true
        (fun _ => ⟨false, 0, "order failed"⟩)
        (fun _ _ => some 999)).heldValueUsd = none ∧
    ¬ ((execute_arbitrage ["USD", "BTC", "ETH", "USD"] 100 true
        (fun _ => ⟨false, 0, "order failed"⟩)
        (fun _ _ => some 999)).heldCurrency = none) := by
  refine ⟨?_, ?_, ?_, ?_, ?_⟩ <;> decide

/-- C5 amended: whenever the first leg of a cycle fails (and the
execution lock was obtained), the trade ends with status FAILED and no
snapshot USD value, while `held_currency` and `held_amount` record the
start currency and the input amount. -/
theorem c5_first_leg_failed (c0 c1 : String) (cs : List String)
    (amount : ℚ) (legResult : Nat → LegOutcome)
    (usdValue : String → ℚ → Option ℚ)
    (hfail : (legResult 0).success = false) :
    (execute_arbitrage (c0 :: c1 :: cs) amount true legResult
        usdValue).status = "FAILED" ∧
    (execute_arbitrage (c0 :: c1 :: cs) amount true legResult
        usdValue).heldCurrency = some c0 ∧
    (execute_arbitrage (c0 :: c1 :: cs) amount true legResult
        usdValue).heldAmount = some amount ∧
    (execute_arbitrage (c0 :: c1 :: cs) amount true legResult
        usdValue).heldValueUsd = none := by
  have hlen : (c0 :: c1 :: cs).length - 1 = cs.length + 1 := by
    simp [List.length_cons]
  simp only [execute_arbitrage, hlen, List.headD, execLegs, hfail,
    Bool.false_eq_true, if_false, Nat.lt_irrefl, reduceCtorEq]
  simp

/-- C5 witness: the amended statement at a concrete failing first leg. -/
theorem c5_first_leg_failed_witness :
    (execute_arbitrage ("USD" :: "BTC" :: ["USD"]) 100 true
        (fun _ => ⟨false, 0, "timeout"⟩)
        (fun _ _ => none)).status = "FAILED" ∧
    (execute_arbitrage ("USD" :: "BTC" :: ["USD"]) 100 true
        (fun _ => ⟨false, 0, "timeout"⟩)
        (fun _ _ => none)).heldCurrency = some "USD" ∧
    (execute_arbitrage ("USD" :: "BTC" :: ["USD"]) 100 true
        (fun _ => ⟨false, 0, "timeout"⟩)
        (fun _ _ => none)).heldAmount = some 100 ∧
    (execute_arbitrage ("USD" :: "BTC" :: ["USD"]) 100 true
        (fun _ => ⟨false, 0, "timeout"⟩)
        (fun _ _ => none)).heldValueUsd = none :=
  c5_first_leg_failed "USD" "BTC" ["USD"] 100
    (fun _ => ⟨false, 0, "timeout"⟩) (fun _ _ => none) rfl
